import Mathlib

/-!
Verification development for the Powerview integration driver.

Shallow embedding of the Device Session Manager (`src/intg-powerview/powerview.py`),
the cover entity constructor (`src/intg-powerview/cover.py`), the setup handler
(`src/intg-powerview/setup.py`) and the device registry (`src/intg-powerview/config.py`).

Stateful methods are embedded as pure functions from the session state and a
transport model to the new session state together with a trace of observable
actions (lock acquire/release, transport calls, event-bus emissions, error logs).
Python exceptions raised by a transport call are modelled by the transport
reporting failure for that call; the `try/except` structure of the source then
determines which trace the embedded function produces.
-/

namespace Powerview

/-- `PowerState` from powerview.py (OFF / ON / STANDBY). -/
inductive PowerState
  | off
  | on
  | standby
  deriving DecidableEq, Repr

/-- Connection lifecycle states of a session (spec section 3: DISCONNECTED,
CONNECTING, CONNECTED, ERROR). The field itself is owned by the framework base
class, which is not under src/. -/
inductive ConnState
  | disconnected
  | connecting
  | connected
  | errorState
  deriving DecidableEq, Repr

/-- `PowerviewCoverInfo` from const.py. `rawPosition` models
`raw_shade.current_position.primary` of the wrapped shade object;
`position` is the copy taken at wrap time (powerview.py `get_covers`). -/
structure PowerviewCoverInfo where
  device_id : String
  type : String
  name : String
  id : String
  position : Int
  rawPosition : Int
  deriving DecidableEq, Repr

/-- `PowerviewSceneInfo` from const.py. -/
structure PowerviewSceneInfo where
  scene_id : String
  name : String
  id : String
  deriving DecidableEq, Repr

/-- The mutable state of a `SmartHub` session (powerview.py): its configured
identifier, `_state`, the framework-held connection state, and the cached
cover and scene lists. -/
structure SmartHub where
  identifier : String
  state : PowerState
  connState : ConnState
  covers : List PowerviewCoverInfo
  scenes : List PowerviewSceneInfo
  deriving DecidableEq, Repr

/-- Failure modes of a transport call: a network/protocol error or a
cancellation (`asyncio.CancelledError`). -/
inductive PvError
  | network
  | cancelled
  deriving DecidableEq, Repr

/-- Result of `query_firmware` on success: the hub-reported serial number,
name and model (`hub.serial_number`, `hub.hub_name`, `hub.model`). -/
structure Firmware where
  serial : String
  hubName : String
  model : String
  deriving DecidableEq, Repr

/-- One raw shade as returned by the shade listing
(`Shades.get_instances`): id, type, name and `current_position.primary`. -/
structure ShadeData where
  id : String
  type : String
  name : String
  primary : Int
  deriving DecidableEq, Repr

/-- One raw scene as returned by the scene listing. -/
structure SceneData where
  id : String
  name : String
  deriving DecidableEq, Repr

/-- The individual calls the session can issue on the transport. -/
inductive TransportCall
  | move (shadeId : String) (pos : Int)
  | openShade (shadeId : String)
  | closeShade (shadeId : String)
  | stopShade (shadeId : String)
  | activate (sceneId : String)
  | listShadesCall
  | listScenesCall
  | firmwareCall
  deriving DecidableEq, Repr

/-- Transport model: behaviour of the external hub HTTP client. `ok c`
says whether the mutating call `c` completes without raising. -/
structure Transport where
  queryFirmware : Except PvError Firmware
  listShades : Except PvError (List ShadeData)
  listScenes : Except PvError (List SceneData)
  ok : TransportCall → Bool

/-- Error-log records written by the session's except handlers. -/
inductive LogMsg
  | coverMissing (coverId : String)
  | sceneMissing (sceneId : String)
  | coverError (coverId : String)
  | sceneError (sceneId : String)
  | connectFailed
  | connectCancelled
  | protocolError
  deriving DecidableEq, Repr

/-- Attribute keys used in UPDATE payloads (`ucapi.cover.Attributes`). -/
inductive AttrKey
  | state
  | position
  deriving DecidableEq, Repr

/-- Attribute values: a string label, an integer, or Python `None`
(open_cover's no-position branch emits `POSITION: None`). -/
inductive AttrVal
  | str (s : String)
  | num (n : Int)
  | pyNone
  deriving DecidableEq, Repr

/-- Event kinds on the event bus (`DeviceEvents`). -/
inductive DeviceEvent
  | update
  | connecting
  | connected
  | disconnected
  | errorEvent
  deriving DecidableEq, Repr

/-- One observable action of a session method. -/
inductive Action
  | lockAcquire
  | lockRelease
  | transport (c : TransportCall)
  | emit (e : DeviceEvent) (entityId : String) (attrs : List (AttrKey × AttrVal))
  | logError (m : LogMsg)
  deriving DecidableEq, Repr

/-- `create_entity_id` (ucapi_framework form used in powerview.py):
`"{entityType}.{deviceId}.{entityId}"`. -/
def create_entity_id (entityType : String) (deviceId : String) (entityId : String) : String :=
  entityType ++ "." ++ deviceId ++ "." ++ entityId

/-- Derived cover state computed during cache refresh, powerview.py:158-162:
`"OPEN" if cover_data.raw_shade.current_position.primary >= 5 else "CLOSED"`. -/
def updateCoversState (p : Int) : String :=
  if p ≥ 5 then "OPEN" else "CLOSED"

/-- Derived cover state computed after a positioned move, powerview.py:245:
`state = "OPEN" if position >= 5 else "CLOSED"`. -/
def openCoverResultState (p : Int) : String :=
  if p ≥ 5 then "OPEN" else "CLOSED"

/-- Derived cover state computed at entity construction, cover.py:45:
`state = "OPEN" if current_position >= 5 else "CLOSED"`. -/
def coverEntityState (p : Int) : String :=
  if p ≥ 5 then "OPEN" else "CLOSED"

/-- The linear scan `next((c for c in self._covers if c.id == cover_id), None)`. -/
def findCover (covers : List PowerviewCoverInfo) (coverId : String) :
    Option PowerviewCoverInfo :=
  covers.find? (fun c => c.id == coverId)

/-- The linear scan `next((s for s in self._scenes if s.id == scene_id), None)`. -/
def findScene (scenes : List PowerviewSceneInfo) (sceneId : String) :
    Option PowerviewSceneInfo :=
  scenes.find? (fun s => s.id == sceneId)

/-- `SmartHub.open_cover` (powerview.py:232-261). On a cache miss it logs and
returns before the `try`. With an explicit position it moves the shade under
the lock and computes (but does not emit) the derived state; with no position
it opens the shade under the lock and then emits one UPDATE with
`{STATE: "OPEN", POSITION: None}` (the `position` local is `None` here). Any
transport failure is caught by the broad except and logged. -/
def open_cover (hub : SmartHub) (t : Transport) (coverId : String)
    (position : Option Int) : SmartHub × List Action :=
  match findCover hub.covers coverId with
  | none => (hub, [Action.logError (LogMsg.coverMissing coverId)])
  | some cover_data =>
    match position with
    | some p =>
      if t.ok (TransportCall.move cover_data.id p) then
        let _state := openCoverResultState p
        (hub, [Action.lockAcquire, Action.transport (TransportCall.move cover_data.id p),
               Action.lockRelease])
      else
        (hub, [Action.lockAcquire, Action.transport (TransportCall.move cover_data.id p),
               Action.lockRelease, Action.logError (LogMsg.coverError coverId)])
    | none =>
      if t.ok (TransportCall.openShade cover_data.id) then
        (hub, [Action.lockAcquire, Action.transport (TransportCall.openShade cover_data.id),
               Action.lockRelease,
               Action.emit DeviceEvent.update
                 (create_entity_id "cover" hub.identifier coverId)
                 [(AttrKey.state, AttrVal.str "OPEN"), (AttrKey.position, AttrVal.pyNone)]])
      else
        (hub, [Action.lockAcquire, Action.transport (TransportCall.openShade cover_data.id),
               Action.lockRelease, Action.logError (LogMsg.coverError coverId)])

/-- `SmartHub.close_cover` (powerview.py:263-285): close under the lock, then
emit one UPDATE with `{STATE: "CLOSED", POSITION: 0}`; failures are logged. -/
def close_cover (hub : SmartHub) (t : Transport) (coverId : String) :
    SmartHub × List Action :=
  match findCover hub.covers coverId with
  | none => (hub, [Action.logError (LogMsg.coverMissing coverId)])
  | some cover_data =>
    if t.ok (TransportCall.closeShade cover_data.id) then
      (hub, [Action.lockAcquire, Action.transport (TransportCall.closeShade cover_data.id),
             Action.lockRelease,
             Action.emit DeviceEvent.update
               (create_entity_id "cover" hub.identifier coverId)
               [(AttrKey.state, AttrVal.str "CLOSED"), (AttrKey.position, AttrVal.num 0)]])
    else
      (hub, [Action.lockAcquire, Action.transport (TransportCall.closeShade cover_data.id),
             Action.lockRelease, Action.logError (LogMsg.coverError coverId)])

/-- `SmartHub.stop_cover` (powerview.py:287-309): stop under the lock, then
emit one UPDATE whose attribute map is only `{STATE: "STOPPED"}`. -/
def stop_cover (hub : SmartHub) (t : Transport) (coverId : String) :
    SmartHub × List Action :=
  match findCover hub.covers coverId with
  | none => (hub, [Action.logError (LogMsg.coverMissing coverId)])
  | some cover_data =>
    if t.ok (TransportCall.stopShade cover_data.id) then
      (hub, [Action.lockAcquire, Action.transport (TransportCall.stopShade cover_data.id),
             Action.lockRelease,
             Action.emit DeviceEvent.update
               (create_entity_id "cover" hub.identifier coverId)
               [(AttrKey.state, AttrVal.str "STOPPED")]])
    else
      (hub, [Action.lockAcquire, Action.transport (TransportCall.stopShade cover_data.id),
             Action.lockRelease, Action.logError (LogMsg.coverError coverId)])

/-- `SmartHub.toggle_cover` (powerview.py:311-339): reads the current raw
position; position 0 issues open, otherwise close, under the lock; then emits
one UPDATE with the state derived from the pre-command position and
`POSITION: 100 if current_position == 0 else 0`. -/
def toggle_cover (hub : SmartHub) (t : Transport) (coverId : String) :
    SmartHub × List Action :=
  match findCover hub.covers coverId with
  | none => (hub, [Action.logError (LogMsg.coverMissing coverId)])
  | some cover_data =>
    let current_position := cover_data.rawPosition
    let call := if current_position = 0 then TransportCall.openShade cover_data.id
                else TransportCall.closeShade cover_data.id
    if t.ok call then
      (hub, [Action.lockAcquire, Action.transport call, Action.lockRelease,
             Action.emit DeviceEvent.update
               (create_entity_id "cover" hub.identifier coverId)
               [(AttrKey.state,
                 AttrVal.str (if current_position ≥ 5 then "OPEN" else "CLOSED")),
                (AttrKey.position,
                 AttrVal.num (if current_position = 0 then 100 else 0))]])
    else
      (hub, [Action.lockAcquire, Action.transport call, Action.lockRelease,
             Action.logError (LogMsg.coverError coverId)])

/-- `SmartHub.activate_scene` (powerview.py:218-230): cache-miss logs and
returns; otherwise the activation runs under the lock and failures are
logged. No event is emitted in any branch. -/
def activate_scene (hub : SmartHub) (t : Transport) (sceneId : String) :
    SmartHub × List Action :=
  match findScene hub.scenes sceneId with
  | none => (hub, [Action.logError (LogMsg.sceneMissing sceneId)])
  | some scene_data =>
    if t.ok (TransportCall.activate scene_data.id) then
      (hub, [Action.lockAcquire, Action.transport (TransportCall.activate scene_data.id),
             Action.lockRelease])
    else
      (hub, [Action.lockAcquire, Action.transport (TransportCall.activate scene_data.id),
             Action.lockRelease, Action.logError (LogMsg.sceneError sceneId)])

/-- Wrap one raw shade as `get_covers` does (powerview.py:190-205):
`device_id = str(shade.id)`, copied position, and the live shade kept. -/
def coverInfoOfShade (s : ShadeData) : PowerviewCoverInfo :=
  { device_id := s.id, type := s.type, name := s.name, id := s.id,
    position := s.primary, rawPosition := s.primary }

/-- Wrap one raw scene as `get_scenes` does (powerview.py:207-216). -/
def sceneInfoOfScene (s : SceneData) : PowerviewSceneInfo :=
  { scene_id := s.id, name := s.name, id := s.id }

/-- `SmartHub._update_covers` (powerview.py:151-178): fetches the shade
listing via `get_covers`, replacing the cache wholesale, then emits one
UPDATE per cover with the derived state and the raw position. Any failure
is caught by the broad except and logged; the cache is then left as it was. -/
def updateCovers (hub : SmartHub) (t : Transport) : SmartHub × List Action :=
  match t.listShades with
  | Except.error _ =>
      (hub, [Action.transport TransportCall.listShadesCall,
             Action.logError LogMsg.protocolError])
  | Except.ok shades =>
      let covers := shades.map coverInfoOfShade
      ({ hub with covers := covers },
       Action.transport TransportCall.listShadesCall ::
         covers.map (fun c =>
           Action.emit DeviceEvent.update
             (create_entity_id "cover" hub.identifier c.id)
             [(AttrKey.state, AttrVal.str (updateCoversState c.rawPosition)),
              (AttrKey.position, AttrVal.num c.rawPosition)]))

/-- `SmartHub._update_scenes` (powerview.py:180-188): fetches the scene
listing via `get_scenes`, replacing the cache wholesale; no per-scene event
is emitted; failures are caught and logged. -/
def updateScenes (hub : SmartHub) (t : Transport) : SmartHub × List Action :=
  match t.listScenes with
  | Except.error _ =>
      (hub, [Action.transport TransportCall.listScenesCall,
             Action.logError LogMsg.protocolError])
  | Except.ok ss =>
      ({ hub with scenes := ss.map sceneInfoOfScene },
       [Action.transport TransportCall.listScenesCall])

/-- `SmartHub.verify_connection` (powerview.py:123-133): awaits the firmware
query; a `CancelledError` or any other exception is logged and the method
returns `False` (`some false`); otherwise the method falls off its end and
returns Python `None` (`none`). -/
def verify_connection (t : Transport) : Option Bool × List Action :=
  match t.queryFirmware with
  | Except.error PvError.cancelled =>
      (some false, [Action.transport TransportCall.firmwareCall,
                    Action.logError LogMsg.connectCancelled])
  | Except.error PvError.network =>
      (some false, [Action.transport TransportCall.firmwareCall,
                    Action.logError LogMsg.connectFailed])
  | Except.ok _ => (none, [Action.transport TransportCall.firmwareCall])

/-- Outcome of a connection attempt: whether the attempt failed (the failure
result propagating out of `connect`), the resulting session state, and the
trace of the attempt. -/
structure ConnectOutcome where
  failed : Bool
  hub : SmartHub
  trace : List Action
  deriving DecidableEq, Repr

/-- Modelled from the spec: the connection-lifecycle base class
(`ucapi_framework.StatelessHTTPDevice.connect`, invoked as `super().connect()`
at powerview.py:140) is not in the source tree. Per spec section 4.1 the base
transitions to CONNECTING and emits a CONNECTING event, then runs the
subclass firmware probe (`verify_connection`). If the probe reports failure
(here: it returned `False` after catching a network error or cancellation),
the attempt fails: connectionState is left DISCONNECTED and no further event
is emitted. If the probe completed without error, connectionState becomes
CONNECTED and a CONNECTED event is emitted. -/
def baseConnect (hub : SmartHub) (t : Transport) : ConnectOutcome :=
  let probe := verify_connection t
  let attemptTrace := Action.emit DeviceEvent.connecting hub.identifier [] :: probe.2
  match probe.1 with
  | some false =>
      { failed := true,
        hub := { hub with connState := ConnState.disconnected },
        trace := attemptTrace }
  | _ =>
      { failed := false,
        hub := { hub with connState := ConnState.connected },
        trace := attemptTrace ++ [Action.emit DeviceEvent.connected hub.identifier []] }

/-- `SmartHub.connect` (powerview.py:135-144): runs the base-class connect
(spec-modelled, see `baseConnect`); a failure there propagates out of
`connect` unchanged because the method installs no handler. On success it
refreshes covers and scenes and returns `True`. -/
def connect (hub : SmartHub) (t : Transport) : ConnectOutcome :=
  let base := baseConnect hub t
  if base.failed then base
  else
    let u1 := updateCovers base.hub t
    let u2 := updateScenes u1.1 t
    { failed := false, hub := u2.1, trace := base.trace ++ u1.2 ++ u2.2 }

/-- Attribute map constructed by `PowerviewCover.__init__` (cover.py:21-62)
for a cover whose wrapped shade reports raw position `p`: the derived state
label together with `POSITION: 100 if current_position == 0 else 0`. -/
def coverEntityAttrs (p : Int) : List (AttrKey × AttrVal) :=
  [(AttrKey.state, AttrVal.str (coverEntityState p)),
   (AttrKey.position, AttrVal.num (if p = 0 then 100 else 0))]

/-- The event kinds emitted along a trace, in order. -/
def emittedEvents : List Action → List DeviceEvent
  | [] => []
  | Action.emit e _ _ :: rest => e :: emittedEvents rest
  | _ :: rest => emittedEvents rest

/-- The UPDATE payloads emitted along a trace, in order. -/
def updatePayloads : List Action → List (String × List (AttrKey × AttrVal))
  | [] => []
  | Action.emit DeviceEvent.update eid attrs :: rest => (eid, attrs) :: updatePayloads rest
  | _ :: rest => updatePayloads rest

/-- Which transport calls mutate hub-side state (move/open/close/stop/
activate); the listing and firmware calls are read-only. -/
def mutatingCall : TransportCall → Bool
  | TransportCall.move _ _ => true
  | TransportCall.openShade _ => true
  | TransportCall.closeShade _ => true
  | TransportCall.stopShade _ => true
  | TransportCall.activate _ => true
  | _ => false

/-- Scan a trace with the current lock-hold depth: every mutating transport
call must occur while the lock is held, every release must match an acquire,
and the lock must be free again at the end of the trace. -/
def lockRespecting : Nat → List Action → Bool
  | d, [] => d == 0
  | d, Action.lockAcquire :: rest => lockRespecting (d + 1) rest
  | d, Action.lockRelease :: rest => decide (0 < d) && lockRespecting (d - 1) rest
  | d, Action.transport c :: rest =>
      (!(mutatingCall c) || decide (0 < d)) && lockRespecting d rest
  | d, Action.emit _ _ _ :: rest => lockRespecting d rest
  | d, Action.logError _ :: rest => lockRespecting d rest

/-- A trace is serialized when, starting with the lock free, every mutating
transport call happens under the lock and acquires/releases are balanced. -/
def serialized (tr : List Action) : Bool :=
  lockRespecting 0 tr

/-- Number of transport calls in a trace. -/
def transportCallCount (tr : List Action) : Nat :=
  tr.countP (fun a => match a with | Action.transport _ => true | _ => false)

/-- Setup wizard steps (`SetupSteps` in setup.py). -/
inductive SetupStep
  | initStep
  | configurationMode
  | discover
  | deviceChoice
  deriving DecidableEq, Repr

/-- `IntegrationSetupError` codes used by setup.py. -/
inductive SetupErrorCode
  | notFoundCode
  | connectionRefused
  | invalidInput
  | other
  deriving DecidableEq, Repr

/-- The forms `RequestUserInput` can present during setup. -/
inductive SetupForm
  | manualAddress
  | discoveredList
  | configurationChoice
  deriving DecidableEq, Repr

/-- Result of one setup-handler call. -/
inductive SetupResult
  | requestUserInput (form : SetupForm)
  | setupComplete
  | setupError (code : SetupErrorCode)
  deriving DecidableEq, Repr

/-- One raw shade as returned by `Shades.get_resources` in setup.py
(`cover["id"]`, `cover["type"]`, `cover["name_unicode"]`). -/
structure ShadeRes where
  id : String
  type : String
  nameUnicode : String
  deriving DecidableEq, Repr

/-- One raw scene as returned by `Scenes.get_resources` in setup.py. -/
structure SceneRes where
  id : String
  nameUnicode : String
  deriving DecidableEq, Repr

/-- Transport behaviour seen by the setup handler: the firmware probe and
the two resource listings, each of which may raise. -/
structure SetupTransport where
  queryFirmware : Except PvError Firmware
  shadeResources : Except PvError (List ShadeRes)
  sceneResources : Except PvError (List SceneRes)

/-- The persisted `PowerviewConfig` dataclass from config.py:53-64: exactly
the four fields `identifier`, `address`, `name`, `model`. -/
structure DeviceRecord where
  identifier : String
  address : String
  name : String
  model : String
  deriving DecidableEq, Repr

/-- The declared fields of the `PowerviewConfig` dataclass (config.py:53-64). -/
def powerviewConfigFields : List String :=
  ["identifier", "address", "name", "model"]

/-- The keyword arguments setup.py:390-397 passes to the `PowerviewConfig`
constructor: the four declared fields plus `covers` and `scenes`. -/
def handleCreationKwargs : List String :=
  ["identifier", "address", "name", "model", "covers", "scenes"]

/-- A Python dataclass `__init__` accepts a keyword call iff every supplied
keyword names a declared field; an unknown keyword raises `TypeError`. -/
def dataclassAccepts (fields kwargs : List String) : Bool :=
  kwargs.all (fun k => fields.contains k)

/-- `Devices.update` (config.py:130-140): the first record with a matching
identifier has its `address`, `name` and `model` overwritten in place (the
source also assigns `covers`/`scenes` attributes, which are not dataclass
fields and are not persisted); returns the updated list, or `none` when no
record matches. -/
def devicesUpdate : List DeviceRecord → DeviceRecord → Option (List DeviceRecord)
  | [], _ => none
  | item :: rest, c =>
    if item.identifier = c.identifier then
      some ({ item with address := c.address, name := c.name, model := c.model } :: rest)
    else
      match devicesUpdate rest c with
      | some rest' => some (item :: rest')
      | none => none

/-- `Devices.add_or_update` (config.py:109-120): update wins over insert;
when no record with the identifier exists, the record is appended. -/
def add_or_update (registry : List DeviceRecord) (c : DeviceRecord) :
    List DeviceRecord :=
  match devicesUpdate registry c with
  | some updated => updated
  | none => registry ++ [c]

/-- `_handle_creation` (setup.py:331-408) applied to the supplied `ip`, the
current wizard step (which the function never assigns) and the registry.
`validIp` models the Python stdlib `ipaddress.ip_address` syntax check
(external code): it returns `false` exactly when `ip_address(ip)` raises
`ValueError`. Empty input returns `SetupError(OTHER)`. Invalid syntax returns
`SetupError(NOT_FOUND)`. With valid syntax, failure of the firmware query or
of either resource listing (the inner `try` at setup.py:362-368) returns
`SetupError(NOT_FOUND)`. When all three calls succeed the handler builds the
device via `PowerviewConfig(identifier=..., address=..., name=..., model=...,
covers=..., scenes=...)`; the dataclass constructor accepts the call only if
every keyword is a declared field, otherwise it raises `TypeError`, which the
outer broad except at setup.py:400-403 converts to
`SetupError(CONNECTION_REFUSED)`. Only an accepted construction reaches
`add_or_update` and `SetupComplete`. -/
def handleCreation (validIp : String → Bool) (step : SetupStep)
    (registry : List DeviceRecord) (t : SetupTransport) (ip : String) :
    SetupResult × SetupStep × List DeviceRecord :=
  if ip ≠ "" then
    if !(validIp ip) then
      (SetupResult.setupError SetupErrorCode.notFoundCode, step, registry)
    else
      match t.queryFirmware, t.shadeResources, t.sceneResources with
      | Except.ok fw, Except.ok _shades, Except.ok _scenes =>
          if dataclassAccepts powerviewConfigFields handleCreationKwargs then
            let device : DeviceRecord :=
              { identifier := fw.serial, address := ip,
                name := fw.hubName, model := fw.model }
            (SetupResult.setupComplete, step, add_or_update registry device)
          else
            (SetupResult.setupError SetupErrorCode.connectionRefused, step, registry)
      | _, _, _ =>
          (SetupResult.setupError SetupErrorCode.notFoundCode, step, registry)
  else
    (SetupResult.setupError SetupErrorCode.other, step, registry)

/-- Whether a setup result redisplays a form. -/
def isRequestForm : SetupResult → Bool
  | SetupResult.requestUserInput _ => true
  | _ => false

/-- A hub session with one cover (`c1`, raw position 50) and one scene
(`s1`), used to instantiate the command theorems. -/
def sampleHub : SmartHub :=
  { identifier := "hub1", state := PowerState.on, connState := ConnState.connected,
    covers := [{ device_id := "c1", type := "shade", name := "Shade 1", id := "c1",
                 position := 50, rawPosition := 50 }],
    scenes := [{ scene_id := "s1", name := "Scene 1", id := "s1" }] }

/-- A transport on which every call succeeds; the listings return one shade
and one scene. -/
def okTransport : Transport :=
  { queryFirmware := Except.ok { serial := "S1", hubName := "Hub 1", model := "M1" },
    listShades := Except.ok [{ id := "c1", type := "shade", name := "Shade 1", primary := 50 }],
    listScenes := Except.ok [{ id := "s1", name := "Scene 1" }],
    ok := fun _ => true }

/-- A transport on which every call raises a network error. -/
def failTransport : Transport :=
  { queryFirmware := Except.error PvError.network,
    listShades := Except.error PvError.network,
    listScenes := Except.error PvError.network,
    ok := fun _ => false }

/-- C1: for every cover position p in [0,100], the derived cover state
computed by the session — in cache refresh (`_update_covers`,
powerview.py:158-162), in the command result of a positioned move
(powerview.py:245) and at entity construction (cover.py:45) — is OPEN iff
p ≥ 5 and CLOSED otherwise; in particular p=4 yields CLOSED and p=5 OPEN. -/
theorem derived_state_threshold (p : Int) (h0 : 0 ≤ p) (h1 : p ≤ 100) :
    (updateCoversState p = "OPEN" ↔ 5 ≤ p) ∧
    (updateCoversState p = "CLOSED" ↔ ¬ 5 ≤ p) ∧
    (openCoverResultState p = "OPEN" ↔ 5 ≤ p) ∧
    (openCoverResultState p = "CLOSED" ↔ ¬ 5 ≤ p) ∧
    (coverEntityState p = "OPEN" ↔ 5 ≤ p) ∧
    (coverEntityState p = "CLOSED" ↔ ¬ 5 ≤ p) ∧
    updateCoversState 4 = "CLOSED" ∧ updateCoversState 5 = "OPEN" ∧
    coverEntityState 4 = "CLOSED" ∧ coverEntityState 5 = "OPEN" := by
  unfold updateCoversState openCoverResultState coverEntityState
  refine ⟨?_, ?_, ?_, ?_, ?_, ?_, by norm_num, by norm_num, by norm_num, by norm_num⟩ <;>
    split_ifs with h <;> simp_all

/-- Witness for C1 at p = 5. -/
theorem derived_state_threshold_witness :
    (0 : Int) ≤ 5 ∧ (5 : Int) ≤ 100 ∧
    ((updateCoversState 5 = "OPEN" ↔ (5 : Int) ≤ 5) ∧
     (updateCoversState 5 = "CLOSED" ↔ ¬ (5 : Int) ≤ 5) ∧
     (openCoverResultState 5 = "OPEN" ↔ (5 : Int) ≤ 5) ∧
     (openCoverResultState 5 = "CLOSED" ↔ ¬ (5 : Int) ≤ 5) ∧
     (coverEntityState 5 = "OPEN" ↔ (5 : Int) ≤ 5) ∧
     (coverEntityState 5 = "CLOSED" ↔ ¬ (5 : Int) ≤ 5) ∧
     updateCoversState 4 = "CLOSED" ∧ updateCoversState 5 = "OPEN" ∧
     coverEntityState 4 = "CLOSED" ∧ coverEntityState 5 = "OPEN") :=
  ⟨by norm_num, by norm_num, derived_state_threshold 5 (by norm_num) (by norm_num)⟩

/-- C2: every transport-mutating call (move, open, close, stop a shade,
activate a scene) issued by a session method happens strictly between the
acquire and the matching release of that session's single
`radio_operation_lock`, in every branch (success, transport failure, and
cache miss, where the lock is never taken): the trace of each command is
`serialized`. Under mutual-exclusion semantics of the lock this is exactly
the property that no two mutating transport calls of one session overlap. -/
theorem commands_hold_lock (hub : SmartHub) (t : Transport)
    (coverId sceneId : String) (pos : Option Int) :
    serialized (open_cover hub t coverId pos).2 = true ∧
    serialized (close_cover hub t coverId).2 = true ∧
    serialized (stop_cover hub t coverId).2 = true ∧
    serialized (toggle_cover hub t coverId).2 = true ∧
    serialized (activate_scene hub t sceneId).2 = true := by
  refine ⟨?_, ?_, ?_, ?_, ?_⟩
  · unfold open_cover
    cases findCover hub.covers coverId with
    | none => simp [serialized, lockRespecting]
    | some cd =>
      cases pos with
      | some p =>
        by_cases h : t.ok (TransportCall.move cd.id p) <;>
          simp [h, serialized, lockRespecting, mutatingCall]
      | none =>
        by_cases h : t.ok (TransportCall.openShade cd.id) <;>
          simp [h, serialized, lockRespecting, mutatingCall]
  · unfold close_cover
    cases findCover hub.covers coverId with
    | none => simp [serialized, lockRespecting]
    | some cd =>
      by_cases h : t.ok (TransportCall.closeShade cd.id) <;>
        simp [h, serialized, lockRespecting, mutatingCall]
  · unfold stop_cover
    cases findCover hub.covers coverId with
    | none => simp [serialized, lockRespecting]
    | some cd =>
      by_cases h : t.ok (TransportCall.stopShade cd.id) <;>
        simp [h, serialized, lockRespecting, mutatingCall]
  · unfold toggle_cover
    cases findCover hub.covers coverId with
    | none => simp [serialized, lockRespecting]
    | some cd =>
      by_cases h0 : cd.rawPosition = 0 <;>
        [by_cases h : t.ok (TransportCall.openShade cd.id);
         by_cases h : t.ok (TransportCall.closeShade cd.id)] <;>
        simp [h0, h, serialized, lockRespecting, mutatingCall]
  · unfold activate_scene
    cases findScene hub.scenes sceneId with
    | none => simp [serialized, lockRespecting]
    | some sd =>
      by_cases h : t.ok (TransportCall.activate sd.id) <;>
        simp [h, serialized, lockRespecting, mutatingCall]

/-- C5: every cover or scene command invoked with an id that is not in the
State Cache returns the not-found failure path: the method logs the
not-found error and returns at once, so its whole trace is that single log
record — zero transport calls, no lock acquisition, no emitted events — and
the session state is untouched. -/
theorem missing_id_no_transport (hub : SmartHub) (t : Transport)
    (coverId sceneId : String) (pos : Option Int)
    (hc : findCover hub.covers coverId = none)
    (hs : findScene hub.scenes sceneId = none) :
    open_cover hub t coverId pos =
      (hub, [Action.logError (LogMsg.coverMissing coverId)]) ∧
    close_cover hub t coverId =
      (hub, [Action.logError (LogMsg.coverMissing coverId)]) ∧
    stop_cover hub t coverId =
      (hub, [Action.logError (LogMsg.coverMissing coverId)]) ∧
    toggle_cover hub t coverId =
      (hub, [Action.logError (LogMsg.coverMissing coverId)]) ∧
    activate_scene hub t sceneId =
      (hub, [Action.logError (LogMsg.sceneMissing sceneId)]) := by
  unfold open_cover close_cover stop_cover toggle_cover activate_scene
  rw [hc, hs]
  exact ⟨rfl, rfl, rfl, rfl, rfl⟩

/-- Witness for C5: the sample hub holds no cover or scene with id
`missing-id`. -/
theorem missing_id_no_transport_witness :
    findCover sampleHub.covers "missing-id" = none ∧
    findScene sampleHub.scenes "missing-id" = none ∧
    (open_cover sampleHub okTransport "missing-id" (some 40) =
       (sampleHub, [Action.logError (LogMsg.coverMissing "missing-id")]) ∧
     close_cover sampleHub okTransport "missing-id" =
       (sampleHub, [Action.logError (LogMsg.coverMissing "missing-id")]) ∧
     stop_cover sampleHub okTransport "missing-id" =
       (sampleHub, [Action.logError (LogMsg.coverMissing "missing-id")]) ∧
     toggle_cover sampleHub okTransport "missing-id" =
       (sampleHub, [Action.logError (LogMsg.coverMissing "missing-id")]) ∧
     activate_scene sampleHub okTransport "missing-id" =
       (sampleHub, [Action.logError (LogMsg.sceneMissing "missing-id")])) :=
  ⟨by decide, by decide,
   missing_id_no_transport sampleHub okTransport "missing-id" "missing-id" (some 40)
     (by decide) (by decide)⟩

/-- C7: when the transport call of a single cover or scene command fails,
the method catches the exception in its broad except handler, logs it, and
returns normally: the resulting trace is exactly acquire / failed call /
release / logged failure, the session state — including the connection
state — is returned unchanged, and no fault escapes (the embedding returns
a normal pair in every case). Only connection-level probes touch
`connState`. -/
theorem transport_failure_recovered (hub : SmartHub) (t : Transport)
    (coverId sceneId : String) (p : Int)
    (cd : PowerviewCoverInfo) (sd : PowerviewSceneInfo)
    (hc : findCover hub.covers coverId = some cd)
    (hs : findScene hub.scenes sceneId = some sd)
    (hfail : ∀ c, t.ok c = false) :
    open_cover hub t coverId (some p) =
      (hub, [Action.lockAcquire, Action.transport (TransportCall.move cd.id p),
             Action.lockRelease, Action.logError (LogMsg.coverError coverId)]) ∧
    open_cover hub t coverId none =
      (hub, [Action.lockAcquire, Action.transport (TransportCall.openShade cd.id),
             Action.lockRelease, Action.logError (LogMsg.coverError coverId)]) ∧
    close_cover hub t coverId =
      (hub, [Action.lockAcquire, Action.transport (TransportCall.closeShade cd.id),
             Action.lockRelease, Action.logError (LogMsg.coverError coverId)]) ∧
    stop_cover hub t coverId =
      (hub, [Action.lockAcquire, Action.transport (TransportCall.stopShade cd.id),
             Action.lockRelease, Action.logError (LogMsg.coverError coverId)]) ∧
    toggle_cover hub t coverId =
      (hub, [Action.lockAcquire,
             Action.transport (if cd.rawPosition = 0 then TransportCall.openShade cd.id
                               else TransportCall.closeShade cd.id),
             Action.lockRelease, Action.logError (LogMsg.coverError coverId)]) ∧
    activate_scene hub t sceneId =
      (hub, [Action.lockAcquire, Action.transport (TransportCall.activate sd.id),
             Action.lockRelease, Action.logError (LogMsg.sceneError sceneId)]) ∧
    (open_cover hub t coverId (some p)).1.connState = hub.connState := by
  unfold open_cover close_cover stop_cover toggle_cover activate_scene
  rw [hc, hs]
  simp [hfail]

/-- Witness for C7 on the sample hub against the always-failing transport. -/
theorem transport_failure_recovered_witness :
    findCover sampleHub.covers "c1" =
      some { device_id := "c1", type := "shade", name := "Shade 1", id := "c1",
             position := 50, rawPosition := 50 } ∧
    findScene sampleHub.scenes "s1" =
      some { scene_id := "s1", name := "Scene 1", id := "s1" } ∧
    (∀ c, failTransport.ok c = false) ∧
    stop_cover sampleHub failTransport "c1" =
      (sampleHub, [Action.lockAcquire, Action.transport (TransportCall.stopShade "c1"),
                   Action.lockRelease, Action.logError (LogMsg.coverError "c1")]) := by
  refine ⟨by decide, by decide, fun c => rfl, ?_⟩
  exact (transport_failure_recovered sampleHub failTransport "c1" "s1" 40
    { device_id := "c1", type := "shade", name := "Shade 1", id := "c1",
      position := 50, rawPosition := 50 }
    { scene_id := "s1", name := "Scene 1", id := "s1" }
    (by decide) (by decide) (fun c => rfl)).2.2.2.1

/-- C9: for a cover present in the cache, `open_cover` with an explicit
in-range position whose transport move succeeds produces exactly
acquire / move / release: it emits no UPDATE event and returns the session
state — in particular the cached cover list with its stored positions —
unchanged. Only the no-position branch emits an UPDATE (one single UPDATE,
when its open call succeeds). -/
theorem open_cover_position_no_emit (hub : SmartHub) (t : Transport)
    (coverId : String) (p : Int) (cd : PowerviewCoverInfo)
    (hc : findCover hub.covers coverId = some cd)
    (h0 : 0 ≤ p) (h1 : p ≤ 100)
    (hok : t.ok (TransportCall.move cd.id p) = true) :
    open_cover hub t coverId (some p) =
      (hub, [Action.lockAcquire, Action.transport (TransportCall.move cd.id p),
             Action.lockRelease]) ∧
    emittedEvents (open_cover hub t coverId (some p)).2 = [] ∧
    (open_cover hub t coverId (some p)).1.covers = hub.covers ∧
    (t.ok (TransportCall.openShade cd.id) = true →
      emittedEvents (open_cover hub t coverId none).2 = [DeviceEvent.update]) := by
  unfold open_cover
  rw [hc]
  simp [hok, emittedEvents]
  intro hopen
  simp [hopen, emittedEvents]

/-- Witness for C9 on the sample hub with target position 40. -/
theorem open_cover_position_no_emit_witness :
    findCover sampleHub.covers "c1" =
      some { device_id := "c1", type := "shade", name := "Shade 1", id := "c1",
             position := 50, rawPosition := 50 } ∧
    (0 : Int) ≤ 40 ∧ (40 : Int) ≤ 100 ∧
    okTransport.ok (TransportCall.move "c1" 40) = true ∧
    (open_cover sampleHub okTransport "c1" (some 40) =
       (sampleHub, [Action.lockAcquire, Action.transport (TransportCall.move "c1" 40),
                    Action.lockRelease]) ∧
     emittedEvents (open_cover sampleHub okTransport "c1" (some 40)).2 = [] ∧
     (open_cover sampleHub okTransport "c1" (some 40)).1.covers = sampleHub.covers ∧
     (okTransport.ok (TransportCall.openShade "c1") = true →
       emittedEvents (open_cover sampleHub okTransport "c1" none).2 =
         [DeviceEvent.update])) :=
  ⟨by decide, by norm_num, by norm_num, rfl,
   open_cover_position_no_emit sampleHub okTransport "c1" 40
     { device_id := "c1", type := "shade", name := "Shade 1", id := "c1",
       position := 50, rawPosition := 50 }
     (by decide) (by norm_num) (by norm_num) rfl⟩

/-- C10: for a cover present in the cache, a successful `stop_cover` emits
exactly one UPDATE whose attribute map is the single pair
`STATE ↦ "STOPPED"` — a label outside the OPEN/CLOSED pair derived from
position — and carries no POSITION attribute. -/
theorem stop_cover_emits_stopped (hub : SmartHub) (t : Transport)
    (coverId : String) (cd : PowerviewCoverInfo)
    (hc : findCover hub.covers coverId = some cd)
    (hok : t.ok (TransportCall.stopShade cd.id) = true) :
    stop_cover hub t coverId =
      (hub, [Action.lockAcquire, Action.transport (TransportCall.stopShade cd.id),
             Action.lockRelease,
             Action.emit DeviceEvent.update
               (create_entity_id "cover" hub.identifier coverId)
               [(AttrKey.state, AttrVal.str "STOPPED")]]) ∧
    updatePayloads (stop_cover hub t coverId).2 =
      [(create_entity_id "cover" hub.identifier coverId,
        [(AttrKey.state, AttrVal.str "STOPPED")])] ∧
    ([(AttrKey.state, AttrVal.str "STOPPED")].lookup AttrKey.position = none) ∧
    ("STOPPED" : String) ≠ "OPEN" ∧ ("STOPPED" : String) ≠ "CLOSED" := by
  unfold stop_cover
  rw [hc]
  simp [hok, updatePayloads, List.lookup]
  decide

/-- Witness for C10 on the sample hub. -/
theorem stop_cover_emits_stopped_witness :
    findCover sampleHub.covers "c1" =
      some { device_id := "c1", type := "shade", name := "Shade 1", id := "c1",
             position := 50, rawPosition := 50 } ∧
    okTransport.ok (TransportCall.stopShade "c1") = true ∧
    updatePayloads (stop_cover sampleHub okTransport "c1").2 =
      [(create_entity_id "cover" sampleHub.identifier "c1",
        [(AttrKey.state, AttrVal.str "STOPPED")])] :=
  ⟨by decide, rfl,
   (stop_cover_emits_stopped sampleHub okTransport "c1"
     { device_id := "c1", type := "shade", name := "Shade 1", id := "c1",
       position := 50, rawPosition := 50 }
     (by decide) rfl).2.1⟩

/-- C3: for every execution of `connect` in which the firmware-query probe
raises a network error or a cancellation, `verify_connection` catches the
exception and reports failure, the (spec-modelled) base connect turns that
into a failed attempt that propagates out of `connect`, the connection
state afterwards is DISCONNECTED (neither CONNECTED nor ERROR), and the
only event emitted by the attempt is CONNECTING — no CONNECTED event. -/
theorem connect_probe_failure (hub : SmartHub) (t : Transport) (e : PvError)
    (h : t.queryFirmware = Except.error e) :
    (connect hub t).failed = true ∧
    (connect hub t).hub.connState = ConnState.disconnected ∧
    emittedEvents (connect hub t).trace = [DeviceEvent.connecting] := by
  cases e <;>
    simp [connect, baseConnect, verify_connection, h, emittedEvents]

/-- Witness for C3: connecting the sample hub over the always-failing
transport. -/
theorem connect_probe_failure_witness :
    failTransport.queryFirmware = Except.error PvError.network ∧
    ((connect sampleHub failTransport).failed = true ∧
     (connect sampleHub failTransport).hub.connState = ConnState.disconnected ∧
     emittedEvents (connect sampleHub failTransport).trace =
       [DeviceEvent.connecting]) :=
  ⟨rfl, connect_probe_failure sampleHub failTransport PvError.network rfl⟩

/-- C8 counterexample: the claim says a call to `open_cover` with a target
position outside 0–100 returns a validation error and makes no transport
call. The code has no range check: at position 150 on the sample hub the
move call is issued to the transport (the trace is acquire / move 150 /
release, containing one transport call). -/
theorem open_cover_out_of_range_counterexample :
    (open_cover sampleHub okTransport "c1" (some 150)).2 =
      [Action.lockAcquire, Action.transport (TransportCall.move "c1" 150),
       Action.lockRelease] ∧
    Action.transport (TransportCall.move "c1" 150) ∈
      (open_cover sampleHub okTransport "c1" (some 150)).2 ∧
    transportCallCount (open_cover sampleHub okTransport "c1" (some 150)).2 = 1 := by
  refine ⟨by decide, by decide, by decide⟩

/-- C8 amended: `open_cover` performs no range validation on an explicit
target position: for any cover in the cache and any position p whatsoever
(inside or outside 0–100), the transport move call is issued with p passed
through unchanged. -/
theorem open_cover_forwards_position (hub : SmartHub) (t : Transport)
    (coverId : String) (p : Int) (cd : PowerviewCoverInfo)
    (hc : findCover hub.covers coverId = some cd) :
    Action.transport (TransportCall.move cd.id p) ∈
      (open_cover hub t coverId (some p)).2 := by
  unfold open_cover
  rw [hc]
  by_cases h : t.ok (TransportCall.move cd.id p) <;> simp [h]

/-- Witness for C8's amended claim at the out-of-range position 150. -/
theorem open_cover_forwards_position_witness :
    findCover sampleHub.covers "c1" =
      some { device_id := "c1", type := "shade", name := "Shade 1", id := "c1",
             position := 50, rawPosition := 50 } ∧
    Action.transport (TransportCall.move "c1" 150) ∈
      (open_cover sampleHub okTransport "c1" (some 150)).2 :=
  ⟨by decide,
   open_cover_forwards_position sampleHub okTransport "c1" 150
     { device_id := "c1", type := "shade", name := "Shade 1", id := "c1",
       position := 50, rawPosition := 50 }
     (by decide)⟩

/-- Setup transport mock of spec section 8, property 6: the hub reports
serial `ABC123`, name `Hub1`, model `X`, and both resource listings
succeed. -/
def c4Transport : SetupTransport :=
  { queryFirmware := Except.ok { serial := "ABC123", hubName := "Hub1", model := "X" },
    shadeResources := Except.ok [{ id := "7", type := "6", nameUnicode := "Shade A" }],
    sceneResources := Except.ok [{ id := "9", nameUnicode := "Scene A" }] }

/-- IP-syntax model under which `10.0.0.5` is valid and `not-an-ip` is not
(matching the Python stdlib `ipaddress.ip_address` on those inputs). -/
def c4ValidIp : String → Bool :=
  fun s => s == "10.0.0.5"

/-- C4 (code bug): with the valid address `10.0.0.5` and a fully successful
probe, `_handle_creation` builds the device record via
`PowerviewConfig(..., covers=..., scenes=...)` although the dataclass
(config.py:53-64) declares no `covers`/`scenes` fields; the constructor call
therefore raises `TypeError`, the outer broad except converts it to
`SetupError(CONNECTION_REFUSED)`, and nothing is persisted — the handler can
never return SetupComplete on this path. -/
theorem handle_creation_typeerror :
    dataclassAccepts powerviewConfigFields handleCreationKwargs = false ∧
    handleCreation c4ValidIp SetupStep.discover [] c4Transport "10.0.0.5" =
      (SetupResult.setupError SetupErrorCode.connectionRefused,
       SetupStep.discover, []) := by
  refine ⟨by decide, by decide⟩

/-- C6 counterexample: the claim says a syntactically invalid address makes
the handler return a validation error that redisplays the manual-address
form. On input `not-an-ip` the handler returns the terminal
`SetupError(NOT_FOUND)` — it does not return any `RequestUserInput` form. -/
theorem handle_creation_invalid_ip_counterexample :
    (handleCreation c4ValidIp SetupStep.discover
        [{ identifier := "ABC123", address := "10.0.0.1", name := "Hub1", model := "X" }]
        c4Transport "not-an-ip").1 =
      SetupResult.setupError SetupErrorCode.notFoundCode ∧
    isRequestForm
      (handleCreation c4ValidIp SetupStep.discover
        [{ identifier := "ABC123", address := "10.0.0.1", name := "Hub1", model := "X" }]
        c4Transport "not-an-ip").1 = false := by
  refine ⟨by decide, by decide⟩

/-- C6 amended: for every setup conversation in which the supplied address
is non-empty and not a syntactically valid IP literal, `_handle_creation`
returns the terminal `SetupError(NOT_FOUND)` (not a redisplayed form),
never returns SetupComplete, and leaves the Device Registry and the wizard
step unchanged. -/
theorem handle_creation_invalid_ip (validIp : String → Bool) (step : SetupStep)
    (registry : List DeviceRecord) (t : SetupTransport) (ip : String)
    (hne : ip ≠ "") (hinv : validIp ip = false) :
    handleCreation validIp step registry t ip =
      (SetupResult.setupError SetupErrorCode.notFoundCode, step, registry) := by
  simp [handleCreation, hne, hinv]

/-- Witness for C6's amended claim at input `not-an-ip`. -/
theorem handle_creation_invalid_ip_witness :
    ("not-an-ip" : String) ≠ "" ∧
    c4ValidIp "not-an-ip" = false ∧
    handleCreation c4ValidIp SetupStep.discover
        [{ identifier := "ABC123", address := "10.0.0.1", name := "Hub1", model := "X" }]
        c4Transport "not-an-ip" =
      (SetupResult.setupError SetupErrorCode.notFoundCode, SetupStep.discover,
       [{ identifier := "ABC123", address := "10.0.0.1", name := "Hub1", model := "X" }]) :=
  ⟨by decide, by decide,
   handle_creation_invalid_ip c4ValidIp SetupStep.discover
     [{ identifier := "ABC123", address := "10.0.0.1", name := "Hub1", model := "X" }]
     c4Transport "not-an-ip" (by decide) (by decide)⟩

end Powerview

